import Mathlib

/-!
Verification of the MarineHealthCheck repository.

The repository holds two Python files:
* `marine_health_testing.py` — the classifier `classify_marine_health`
  (validation, four bucket functions, aggregation) plus decision-table and
  boundary test tables.
* `c2_branch_tests_marine_health.py` — a second, textually identical copy of
  `classify_marine_health`, the decision list `DECISIONS`, the decision
  evaluator `eval_decisions`, and the literal test corpora `TESTS` and
  `ERROR_TESTS` with the coverage harness `main`.

Python floats are modelled by `Flt`: NaN, the two infinities, and finite
values as exact rationals.  IEEE-754 comparison semantics are embedded in
`Flt.lt` / `Flt.le` (every comparison involving NaN is false).  All numeric
literals of the source are exact in binary or compared only against
themselves, so rationals are a faithful carrier for the finite values.
-/

/-- Model of a Python float: NaN, +inf, -inf, or a finite value. -/
inductive Flt where
  | nan : Flt
  | inf : Flt
  | ninf : Flt
  | fin : ℚ → Flt
deriving DecidableEq, Repr

/-- IEEE-754 `<` on model floats: any comparison with NaN is false. -/
def Flt.lt : Flt → Flt → Bool
  | .nan, _ => false
  | _, .nan => false
  | .inf, _ => false
  | _, .ninf => false
  | .ninf, _ => true
  | .fin _, .inf => true
  | .fin a, .fin b => decide (a < b)

/-- IEEE-754 `<=` on model floats: any comparison with NaN is false. -/
def Flt.le : Flt → Flt → Bool
  | .nan, _ => false
  | _, .nan => false
  | .ninf, _ => true
  | _, .inf => true
  | .inf, _ => false
  | .fin _, .ninf => false
  | .fin a, .fin b => decide (a ≤ b)

/-- `math.isnan`. -/
def Flt.isnan : Flt → Bool
  | .nan => true
  | _ => false

/-- `math.isinf`. -/
def Flt.isinf : Flt → Bool
  | .inf => true
  | .ninf => true
  | _ => false

/-- Result dictionary of `classify_marine_health`:
`{"risk": ..., "factors": [...]}`. -/
structure RiskResult where
  risk : String
  factors : List String
deriving DecidableEq, Repr

namespace MarineHealthTesting

/-- `bucket_temp` from `marine_health_testing.py` (lines 33–38). -/
def bucket_temp (t : Flt) : String :=
  if (Flt.le (.fin 24) t && Flt.le t (.fin 28)) then "safe"
  else if ((Flt.le (.fin 22) t && Flt.lt t (.fin 24)) ||
           (Flt.lt (.fin 28) t && Flt.le t (.fin 30))) then "moderate"
  else "high"

/-- `bucket_sal` from `marine_health_testing.py` (lines 40–45). -/
def bucket_sal (s : Flt) : String :=
  if (Flt.le (.fin 30) s && Flt.le s (.fin 35)) then "safe"
  else if ((Flt.le (.fin 28) s && Flt.lt s (.fin 30)) ||
           (Flt.lt (.fin 35) s && Flt.le s (.fin 37))) then "moderate"
  else "high"

/-- `bucket_do` from `marine_health_testing.py` (lines 47–52). -/
def bucket_do (o : Flt) : String :=
  if Flt.le (.fin 6) o then "safe"
  else if Flt.lt o (.fin 4) then "high"
  else "moderate"

/-- `bucket_nh3` from `marine_health_testing.py` (lines 54–59). -/
def bucket_nh3 (a : Flt) : String :=
  if Flt.le a (.fin (2/100)) then "safe"
  else if Flt.lt (.fin (5/100)) a then "high"
  else "moderate"

/-- The `factors` dict of `classify_marine_health` (insertion order kept,
as Python dicts do). -/
def factorsDict (temp_c sal_psu do_mgL nh3_mgL : Flt) : List (String × String) :=
  [("temp", bucket_temp temp_c),
   ("salinity", bucket_sal sal_psu),
   ("dissolved_oxygen", bucket_do do_mgL),
   ("ammonia", bucket_nh3 nh3_mgL)]

/-- `classify_marine_health` from `marine_health_testing.py` (lines 22–75).
Raised `ValueError`s become `Except.error` with the source's message. -/
def classify_marine_health (temp_c sal_psu do_mgL nh3_mgL : Flt) :
    Except String RiskResult :=
  if temp_c.isnan || temp_c.isinf then
    .error "temp_c must be a finite number."
  else if sal_psu.isnan || sal_psu.isinf then
    .error "sal_psu must be a finite number."
  else if do_mgL.isnan || do_mgL.isinf then
    .error "do_mgL must be a finite number."
  else if nh3_mgL.isnan || nh3_mgL.isinf then
    .error "nh3_mgL must be a finite number."
  else if (Flt.le temp_c (.fin 0) || Flt.le sal_psu (.fin 0) ||
           Flt.le do_mgL (.fin 0) || Flt.lt nh3_mgL (.fin 0)) then
    .error "Invalid physical ranges."
  else
    let factors := factorsDict temp_c sal_psu do_mgL nh3_mgL
    let vals := factors.map Prod.snd
    let risk := if vals.contains "high" then "high"
                else if vals.contains "moderate" then "medium"
                else "low"
    .ok { risk := risk,
          factors := (factors.filter (fun p => p.2 ≠ "safe")).map Prod.fst }

end MarineHealthTesting

namespace C2Branch

/-- `bucket_temp` from `c2_branch_tests_marine_health.py` (lines 19–24). -/
def bucket_temp (t : Flt) : String :=
  if (Flt.le (.fin 24) t && Flt.le t (.fin 28)) then "safe"
  else if ((Flt.le (.fin 22) t && Flt.lt t (.fin 24)) ||
           (Flt.lt (.fin 28) t && Flt.le t (.fin 30))) then "moderate"
  else "high"

/-- `bucket_sal` from `c2_branch_tests_marine_health.py` (lines 25–30). -/
def bucket_sal (s : Flt) : String :=
  if (Flt.le (.fin 30) s && Flt.le s (.fin 35)) then "safe"
  else if ((Flt.le (.fin 28) s && Flt.lt s (.fin 30)) ||
           (Flt.lt (.fin 35) s && Flt.le s (.fin 37))) then "moderate"
  else "high"

/-- `bucket_do` from `c2_branch_tests_marine_health.py` (lines 31–36). -/
def bucket_do (o : Flt) : String :=
  if Flt.le (.fin 6) o then "safe"
  else if Flt.lt o (.fin 4) then "high"
  else "moderate"

/-- `bucket_nh3` from `c2_branch_tests_marine_health.py` (lines 37–42). -/
def bucket_nh3 (a : Flt) : String :=
  if Flt.le a (.fin (2/100)) then "safe"
  else if Flt.lt (.fin (5/100)) a then "high"
  else "moderate"

/-- The `factors` dict of the second copy of `classify_marine_health`. -/
def factorsDict (temp_c sal_psu do_mgL nh3_mgL : Flt) : List (String × String) :=
  [("temp", bucket_temp temp_c),
   ("salinity", bucket_sal sal_psu),
   ("dissolved_oxygen", bucket_do do_mgL),
   ("ammonia", bucket_nh3 nh3_mgL)]

/-- `classify_marine_health` from `c2_branch_tests_marine_health.py`
(lines 12–56), a second copy of the classifier. -/
def classify_marine_health (temp_c sal_psu do_mgL nh3_mgL : Flt) :
    Except String RiskResult :=
  if temp_c.isnan || temp_c.isinf then
    .error "temp_c must be a finite number."
  else if sal_psu.isnan || sal_psu.isinf then
    .error "sal_psu must be a finite number."
  else if do_mgL.isnan || do_mgL.isinf then
    .error "do_mgL must be a finite number."
  else if nh3_mgL.isnan || nh3_mgL.isinf then
    .error "nh3_mgL must be a finite number."
  else if (Flt.le temp_c (.fin 0) || Flt.le sal_psu (.fin 0) ||
           Flt.le do_mgL (.fin 0) || Flt.lt nh3_mgL (.fin 0)) then
    .error "Invalid physical ranges."
  else
    let factors := factorsDict temp_c sal_psu do_mgL nh3_mgL
    let vals := factors.map Prod.snd
    let risk := if vals.contains "high" then "high"
                else if vals.contains "moderate" then "medium"
                else "low"
    .ok { risk := risk,
          factors := (factors.filter (fun p => p.2 ≠ "safe")).map Prod.fst }

/-- `DECISIONS` from `c2_branch_tests_marine_health.py` (lines 58–65). -/
def DECISIONS : List String :=
  ["VAL_temp_gt0", "VAL_sal_gt0", "VAL_do_gt0", "VAL_nh3_ge0",
   "T_safe_24_28", "T_moderate_22_24_or_28_30",
   "S_safe_30_35", "S_moderate_28_30_or_35_37",
   "DO_safe_ge6", "DO_high_lt4",
   "NH3_safe_le_0_02", "NH3_high_gt_0_05",
   "AGG_has_high", "AGG_has_moderate"]

/-- `eval_decisions` from `c2_branch_tests_marine_health.py` (lines 67–93).
The returned dict is a key/value list in Python insertion order. -/
def eval_decisions (temp_c sal_psu do_mgL nh3_mgL : Flt) :
    List (String × Bool) :=
  let t_safe := Flt.le (.fin 24) temp_c && Flt.le temp_c (.fin 28)
  let t_mod := (Flt.le (.fin 22) temp_c && Flt.lt temp_c (.fin 24)) ||
               (Flt.lt (.fin 28) temp_c && Flt.le temp_c (.fin 30))
  let s_safe := Flt.le (.fin 30) sal_psu && Flt.le sal_psu (.fin 35)
  let s_mod := (Flt.le (.fin 28) sal_psu && Flt.lt sal_psu (.fin 30)) ||
               (Flt.lt (.fin 35) sal_psu && Flt.le sal_psu (.fin 37))
  let do_safe := Flt.le (.fin 6) do_mgL
  let do_high := Flt.lt do_mgL (.fin 4)
  let nh3_safe := Flt.le nh3_mgL (.fin (2/100))
  let nh3_high := Flt.lt (.fin (5/100)) nh3_mgL
  let any_high := (!t_safe && !t_mod) || (!s_safe && !s_mod) || do_high ||
                  (!nh3_safe && nh3_high)
  let any_mod := !any_high &&
                 (t_mod || s_mod || (!do_safe && !do_high) ||
                  (!nh3_safe && !nh3_high))
  [("VAL_temp_gt0", Flt.lt (.fin 0) temp_c),
   ("VAL_sal_gt0", Flt.lt (.fin 0) sal_psu),
   ("VAL_do_gt0", Flt.lt (.fin 0) do_mgL),
   ("VAL_nh3_ge0", Flt.le (.fin 0) nh3_mgL),
   ("T_safe_24_28", t_safe),
   ("T_moderate_22_24_or_28_30", t_mod),
   ("S_safe_30_35", s_safe),
   ("S_moderate_28_30_or_35_37", s_mod),
   ("DO_safe_ge6", do_safe),
   ("DO_high_lt4", do_high),
   ("NH3_safe_le_0_02", nh3_safe),
   ("NH3_high_gt_0_05", nh3_high),
   ("AGG_has_high", any_high),
   ("AGG_has_moderate", any_mod)]

/-- One corpus entry: label, the four inputs, expected risk string. -/
structure TestCase where
  label : String
  temp_c : Flt
  sal_psu : Flt
  do_mgL : Flt
  nh3_mgL : Flt
  expected : String
deriving Repr

/-- `TESTS` from `c2_branch_tests_marine_health.py` (lines 95–105). -/
def TESTS : List TestCase :=
  [⟨"ALL_SAFE", .fin 26, .fin 32, .fin 7, .fin (5/1000), "low"⟩,
   ⟨"TEMP_MOD", .fin (45/2), .fin 32, .fin 7, .fin (5/1000), "medium"⟩,
   ⟨"TEMP_HIGH", .fin 20, .fin 32, .fin 7, .fin (5/1000), "high"⟩,
   ⟨"SAL_MOD", .fin 26, .fin 29, .fin 7, .fin (5/1000), "medium"⟩,
   ⟨"SAL_HIGH", .fin 26, .fin 27, .fin 7, .fin (5/1000), "high"⟩,
   ⟨"DO_MOD", .fin 26, .fin 32, .fin 5, .fin (5/1000), "medium"⟩,
   ⟨"DO_HIGH", .fin 26, .fin 32, .fin 3, .fin (5/1000), "high"⟩,
   ⟨"NH3_MOD", .fin 26, .fin 32, .fin 7, .fin (3/100), "medium"⟩,
   ⟨"NH3_HIGH", .fin 26, .fin 32, .fin 7, .fin (6/100), "high"⟩]

/-- One error-corpus entry: label and the four inputs. -/
structure ErrorCase where
  label : String
  temp_c : Flt
  sal_psu : Flt
  do_mgL : Flt
  nh3_mgL : Flt
deriving Repr

/-- `ERROR_TESTS` from `c2_branch_tests_marine_health.py` (lines 107–112). -/
def ERROR_TESTS : List ErrorCase :=
  [⟨"VAL_temp_le0", .fin 0, .fin 32, .fin 7, .fin 0⟩,
   ⟨"VAL_sal_le0", .fin 26, .fin 0, .fin 7, .fin 0⟩,
   ⟨"VAL_do_le0", .fin 26, .fin 32, .fin 0, .fin 0⟩,
   ⟨"VAL_nh3_lt0", .fin 26, .fin 32, .fin 7, .fin (-(1/1000))⟩]

/-- The decision records `main` accumulates into `cov`: `eval_decisions`
applied to every corpus input, `TESTS` first, then `ERROR_TESTS`
(lines 114–137). -/
def corpusRecords : List (List (String × Bool)) :=
  TESTS.map (fun c => eval_decisions c.temp_c c.sal_psu c.do_mgL c.nh3_mgL) ++
  ERROR_TESTS.map (fun c => eval_decisions c.temp_c c.sal_psu c.do_mgL c.nh3_mgL)

/-- Whether a decision name was observed with boolean value `b` in some
corpus record — membership of `b` in the accumulated set `cov[name]`. -/
def seen (name : String) (b : Bool) : Bool :=
  corpusRecords.any (fun rec => rec.contains (name, b))

/-- The `missing` list of `main` (line 148): decisions that did not witness
both outcomes across the corpus.  `main` prints the PASS verdict
"C2 achieved for all tracked decisions" iff this list is empty. -/
def missing : List String :=
  DECISIONS.filter (fun n => !(seen n true && seen n false))

/-- The risk level the spec derives from the Decision/Coverage Evaluator:
"high" when `AGG_has_high` is true, else "medium" when `AGG_has_moderate`
is true, else "low".  This follows the spec's words (§4.2 consistency
requirement) and is the second side of the refinement comparison. -/
def derivedRisk (temp_c sal_psu do_mgL nh3_mgL : Flt) : String :=
  let d := eval_decisions temp_c sal_psu do_mgL nh3_mgL
  if d.lookup "AGG_has_high" = some true then "high"
  else if d.lookup "AGG_has_moderate" = some true then "medium"
  else "low"

end C2Branch

/-!
Characterizations of the four bucket functions on finite inputs, proved
from the embedded code.
-/

namespace MarineHealthTesting

theorem bucket_temp_safe_iff (t : ℚ) :
    bucket_temp (.fin t) = "safe" ↔ (24 ≤ t ∧ t ≤ 28) := by
  unfold bucket_temp
  split_ifs with h1 h2 <;> simp_all [Flt.le, Flt.lt]

theorem bucket_temp_moderate_iff (t : ℚ) :
    bucket_temp (.fin t) = "moderate" ↔
      ((22 ≤ t ∧ t < 24) ∨ (28 < t ∧ t ≤ 30)) := by
  unfold bucket_temp
  split_ifs with h1 h2 <;> simp_all [Flt.le, Flt.lt]

theorem bucket_temp_high_iff (t : ℚ) :
    bucket_temp (.fin t) = "high" ↔
      ¬(24 ≤ t ∧ t ≤ 28) ∧ ¬((22 ≤ t ∧ t < 24) ∨ (28 < t ∧ t ≤ 30)) := by
  unfold bucket_temp
  split_ifs with h1 h2 <;> simp_all [Flt.le, Flt.lt]

theorem bucket_sal_safe_iff (s : ℚ) :
    bucket_sal (.fin s) = "safe" ↔ (30 ≤ s ∧ s ≤ 35) := by
  unfold bucket_sal
  split_ifs with h1 h2 <;> simp_all [Flt.le, Flt.lt]

theorem bucket_sal_moderate_iff (s : ℚ) :
    bucket_sal (.fin s) = "moderate" ↔
      ((28 ≤ s ∧ s < 30) ∨ (35 < s ∧ s ≤ 37)) := by
  unfold bucket_sal
  split_ifs with h1 h2 <;> simp_all [Flt.le, Flt.lt]

theorem bucket_sal_high_iff (s : ℚ) :
    bucket_sal (.fin s) = "high" ↔
      ¬(30 ≤ s ∧ s ≤ 35) ∧ ¬((28 ≤ s ∧ s < 30) ∨ (35 < s ∧ s ≤ 37)) := by
  unfold bucket_sal
  split_ifs with h1 h2 <;> simp_all [Flt.le, Flt.lt]

theorem bucket_do_safe_iff (o : ℚ) :
    bucket_do (.fin o) = "safe" ↔ 6 ≤ o := by
  unfold bucket_do
  split_ifs with h1 h2 <;> simp_all [Flt.le, Flt.lt]

theorem bucket_do_high_iff (o : ℚ) :
    bucket_do (.fin o) = "high" ↔ o < 4 := by
  unfold bucket_do
  split_ifs with h1 h2 <;> simp_all [Flt.le, Flt.lt] <;> linarith

theorem bucket_do_moderate_iff (o : ℚ) :
    bucket_do (.fin o) = "moderate" ↔ (4 ≤ o ∧ o < 6) := by
  unfold bucket_do
  split_ifs with h1 h2 <;> simp_all [Flt.le, Flt.lt] <;>
    first
    | linarith
    | exact ⟨by linarith, by linarith⟩

theorem bucket_nh3_safe_iff (a : ℚ) :
    bucket_nh3 (.fin a) = "safe" ↔ a ≤ 2/100 := by
  unfold bucket_nh3
  split_ifs with h1 h2 <;> simp_all [Flt.le, Flt.lt]

theorem bucket_nh3_high_iff (a : ℚ) :
    bucket_nh3 (.fin a) = "high" ↔ 5/100 < a := by
  unfold bucket_nh3
  split_ifs with h1 h2 <;> simp_all [Flt.le, Flt.lt] <;> linarith

theorem bucket_nh3_moderate_iff (a : ℚ) :
    bucket_nh3 (.fin a) = "moderate" ↔ (2/100 < a ∧ a ≤ 5/100) := by
  unfold bucket_nh3
  split_ifs with h1 h2 <;> simp_all [Flt.le, Flt.lt] <;>
    first
    | linarith
    | exact ⟨by linarith, by linarith⟩

theorem bucket_temp_total (t : Flt) :
    bucket_temp t = "safe" ∨ bucket_temp t = "moderate" ∨
      bucket_temp t = "high" := by
  unfold bucket_temp
  split_ifs <;> simp

theorem bucket_sal_total (s : Flt) :
    bucket_sal s = "safe" ∨ bucket_sal s = "moderate" ∨
      bucket_sal s = "high" := by
  unfold bucket_sal
  split_ifs <;> simp

theorem bucket_do_total (o : Flt) :
    bucket_do o = "safe" ∨ bucket_do o = "moderate" ∨ bucket_do o = "high" := by
  unfold bucket_do
  split_ifs <;> simp

theorem bucket_nh3_total (a : Flt) :
    bucket_nh3 a = "safe" ∨ bucket_nh3 a = "moderate" ∨
      bucket_nh3 a = "high" := by
  unfold bucket_nh3
  split_ifs <;> simp

/-- On valid finite inputs, `classify_marine_health` passes validation and
returns the aggregation of the four buckets. -/
theorem classify_fin_of_valid (t s o a : ℚ)
    (ht : 0 < t) (hs : 0 < s) (ho : 0 < o) (ha : 0 ≤ a) :
    classify_marine_health (.fin t) (.fin s) (.fin o) (.fin a) =
      .ok { risk :=
              if "high" ∈ (factorsDict (.fin t) (.fin s) (.fin o)
                  (.fin a)).map Prod.snd then "high"
              else if "moderate" ∈ (factorsDict (.fin t) (.fin s) (.fin o)
                  (.fin a)).map Prod.snd then "medium"
              else "low",
            factors :=
              ((factorsDict (.fin t) (.fin s) (.fin o) (.fin a)).filter
                (fun p => p.2 ≠ "safe")).map Prod.fst } := by
  unfold classify_marine_health
  simp [Flt.isnan, Flt.isinf, Flt.le, Flt.lt, ht.not_le, hs.not_le, ho.not_le,
    ha.not_lt, List.contains]
  simp only [List.elem_eq_mem, decide_eq_true_eq]

theorem mem_snd_factorsDict (t s o a : Flt) (x : String) :
    x ∈ (factorsDict t s o a).map Prod.snd ↔
      (bucket_temp t = x ∨ bucket_sal s = x ∨ bucket_do o = x ∨
       bucket_nh3 a = x) := by
  simp [factorsDict, eq_comm]

end MarineHealthTesting

/-!
The two copies of the classifier are definitionally identical.
-/

theorem c2_bucket_temp_eq : C2Branch.bucket_temp = MarineHealthTesting.bucket_temp :=
  rfl

theorem c2_bucket_sal_eq : C2Branch.bucket_sal = MarineHealthTesting.bucket_sal :=
  rfl

theorem c2_bucket_do_eq : C2Branch.bucket_do = MarineHealthTesting.bucket_do :=
  rfl

theorem c2_bucket_nh3_eq : C2Branch.bucket_nh3 = MarineHealthTesting.bucket_nh3 :=
  rfl

theorem c2_classify_eq :
    C2Branch.classify_marine_health = MarineHealthTesting.classify_marine_health :=
  rfl

namespace C2Branch

/-- The `AGG_has_high` entry of `eval_decisions` is true exactly when some
bucket of the classifier is "high". -/
theorem eval_agg_high_true_iff (t s o a : ℚ) :
    ((eval_decisions (.fin t) (.fin s) (.fin o) (.fin a)).lookup "AGG_has_high"
      = some true) ↔
      (bucket_temp (.fin t) = "high" ∨ bucket_sal (.fin s) = "high" ∨
       bucket_do (.fin o) = "high" ∨ bucket_nh3 (.fin a) = "high") := by
  rw [c2_bucket_temp_eq, c2_bucket_sal_eq, c2_bucket_do_eq, c2_bucket_nh3_eq,
    MarineHealthTesting.bucket_temp_high_iff,
    MarineHealthTesting.bucket_sal_high_iff,
    MarineHealthTesting.bucket_do_high_iff,
    MarineHealthTesting.bucket_nh3_high_iff]
  simp [eval_decisions, List.lookup, Flt.le, Flt.lt]
  rw [or_assoc, or_assoc]
  exact or_congr
    ⟨fun ⟨x, y, z⟩ => ⟨fun h => x.resolve_left (not_lt.mpr h),
       fun h => y.resolve_left (not_lt.mpr h),
       fun h => z.resolve_left (not_le.mpr h)⟩,
     fun ⟨x, y, z⟩ => ⟨or_iff_not_imp_left.mpr (fun h => x (not_lt.mp h)),
       or_iff_not_imp_left.mpr (fun h => y (not_lt.mp h)),
       or_iff_not_imp_left.mpr (fun h => z (not_le.mp h))⟩⟩
    (or_congr
      ⟨fun ⟨x, y, z⟩ => ⟨fun h => x.resolve_left (not_lt.mpr h),
         fun h => y.resolve_left (not_lt.mpr h),
         fun h => z.resolve_left (not_le.mpr h)⟩,
       fun ⟨x, y, z⟩ => ⟨or_iff_not_imp_left.mpr (fun h => x (not_lt.mp h)),
         or_iff_not_imp_left.mpr (fun h => y (not_lt.mp h)),
         or_iff_not_imp_left.mpr (fun h => z (not_le.mp h))⟩⟩
      (or_congr Iff.rfl ⟨And.right, fun h => ⟨by linarith, h⟩⟩))

/-- The `AGG_has_moderate` entry of `eval_decisions` is true exactly when no
bucket is "high" and some bucket is "moderate". -/
theorem eval_agg_mod_true_iff (t s o a : ℚ) :
    ((eval_decisions (.fin t) (.fin s) (.fin o) (.fin a)).lookup "AGG_has_moderate"
      = some true) ↔
      (¬(bucket_temp (.fin t) = "high" ∨ bucket_sal (.fin s) = "high" ∨
         bucket_do (.fin o) = "high" ∨ bucket_nh3 (.fin a) = "high") ∧
       (bucket_temp (.fin t) = "moderate" ∨ bucket_sal (.fin s) = "moderate" ∨
        bucket_do (.fin o) = "moderate" ∨ bucket_nh3 (.fin a) = "moderate")) := by
  have hP : (24 ≤ t ∧ t ≤ 28 ∨ 22 ≤ t ∧ t < 24 ∨ 28 < t ∧ t ≤ 30) ↔
      ((24 ≤ t → 28 < t) → (22 ≤ t → 24 ≤ t) → 28 < t ∧ t ≤ 30) := by
    constructor
    · rintro (⟨h1, h2⟩ | ⟨h1, h2⟩ | hm) <;> intro f g
      · exact absurd (f h1) (not_lt.mpr h2)
      · exact absurd (g h1) (not_le.mpr h2)
      · exact hm
    · intro h
      by_cases hsafe : 24 ≤ t ∧ t ≤ 28
      · exact Or.inl hsafe
      by_cases hmod : 22 ≤ t ∧ t < 24
      · exact Or.inr (Or.inl hmod)
      refine Or.inr (Or.inr (h ?_ ?_))
      · intro h24
        by_contra hlt
        exact hsafe ⟨h24, not_lt.mp hlt⟩
      · intro h22
        by_contra h24
        exact hmod ⟨h22, not_le.mp h24⟩
  have hQ : (30 ≤ s ∧ s ≤ 35 ∨ 28 ≤ s ∧ s < 30 ∨ 35 < s ∧ s ≤ 37) ↔
      ((30 ≤ s → 35 < s) → (28 ≤ s → 30 ≤ s) → 35 < s ∧ s ≤ 37) := by
    constructor
    · rintro (⟨h1, h2⟩ | ⟨h1, h2⟩ | hm) <;> intro f g
      · exact absurd (f h1) (not_lt.mpr h2)
      · exact absurd (g h1) (not_le.mpr h2)
      · exact hm
    · intro h
      by_cases hsafe : 30 ≤ s ∧ s ≤ 35
      · exact Or.inl hsafe
      by_cases hmod : 28 ≤ s ∧ s < 30
      · exact Or.inr (Or.inl hmod)
      refine Or.inr (Or.inr (h ?_ ?_))
      · intro h30
        by_contra hlt
        exact hsafe ⟨h30, not_lt.mp hlt⟩
      · intro h28
        by_contra h30
        exact hmod ⟨h28, not_le.mp h30⟩
  have hM : (((22 ≤ t ∧ t < 24 ∨ 28 < t ∧ t ≤ 30) ∨
        28 ≤ s ∧ s < 30 ∨ 35 < s ∧ s ≤ 37) ∨ o < 6 ∧ 4 ≤ o) ∨
        2/100 < a ∧ a ≤ 5/100 ↔
      (22 ≤ t ∧ t < 24 ∨ 28 < t ∧ t ≤ 30) ∨
        (28 ≤ s ∧ s < 30 ∨ 35 < s ∧ s ≤ 37) ∨ 4 ≤ o ∧ o < 6 ∨
        2/100 < a ∧ a ≤ 5/100 := by
    rw [or_assoc, or_assoc]
    exact or_congr Iff.rfl (or_congr Iff.rfl (or_congr and_comm Iff.rfl))
  rw [c2_bucket_temp_eq, c2_bucket_sal_eq, c2_bucket_do_eq, c2_bucket_nh3_eq,
    MarineHealthTesting.bucket_temp_high_iff,
    MarineHealthTesting.bucket_sal_high_iff,
    MarineHealthTesting.bucket_do_high_iff,
    MarineHealthTesting.bucket_nh3_high_iff,
    MarineHealthTesting.bucket_temp_moderate_iff,
    MarineHealthTesting.bucket_sal_moderate_iff,
    MarineHealthTesting.bucket_do_moderate_iff,
    MarineHealthTesting.bucket_nh3_moderate_iff]
  simp [eval_decisions, List.lookup, Flt.le, Flt.lt]
  constructor
  · rintro ⟨⟨⟨⟨hp, hq⟩, hr⟩, hs⟩, hm⟩
    exact ⟨⟨hP.mp hp, hQ.mp hq, hr, hs.elim (fun h => by linarith) id⟩, hM.mp hm⟩
  · rintro ⟨⟨hp, hq, hr, hs⟩, hm⟩
    exact ⟨⟨⟨⟨hP.mpr hp, hQ.mpr hq⟩, hr⟩, Or.inr hs⟩, hM.mpr hm⟩

end C2Branch

/-!
Claim theorems.
-/

/-- C1: for every valid input (all readings finite, temp, sal, do positive,
nh3 non-negative), each reading's bucket follows the §4.1 threshold table
with the stated closed/half-open boundaries: temperature safe on [24,28],
moderate on [22,24) ∪ (28,30], otherwise high; salinity safe on [30,35],
moderate on [28,30) ∪ (35,37], otherwise high; dissolved oxygen safe for
≥ 6, moderate on [4,6), high for < 4; ammonia safe for ≤ 0.02, moderate
on (0.02,0.05], high for > 0.05. -/
theorem C1_bucket_thresholds (t s o a : ℚ)
    (ht : 0 < t) (hs : 0 < s) (ho : 0 < o) (ha : 0 ≤ a) :
    (MarineHealthTesting.bucket_temp (.fin t) = "safe" ↔ (24 ≤ t ∧ t ≤ 28)) ∧
    (MarineHealthTesting.bucket_temp (.fin t) = "moderate" ↔
      ((22 ≤ t ∧ t < 24) ∨ (28 < t ∧ t ≤ 30))) ∧
    (MarineHealthTesting.bucket_temp (.fin t) = "high" ↔
      ¬(24 ≤ t ∧ t ≤ 28) ∧ ¬((22 ≤ t ∧ t < 24) ∨ (28 < t ∧ t ≤ 30))) ∧
    (MarineHealthTesting.bucket_sal (.fin s) = "safe" ↔ (30 ≤ s ∧ s ≤ 35)) ∧
    (MarineHealthTesting.bucket_sal (.fin s) = "moderate" ↔
      ((28 ≤ s ∧ s < 30) ∨ (35 < s ∧ s ≤ 37))) ∧
    (MarineHealthTesting.bucket_sal (.fin s) = "high" ↔
      ¬(30 ≤ s ∧ s ≤ 35) ∧ ¬((28 ≤ s ∧ s < 30) ∨ (35 < s ∧ s ≤ 37))) ∧
    (MarineHealthTesting.bucket_do (.fin o) = "safe" ↔ 6 ≤ o) ∧
    (MarineHealthTesting.bucket_do (.fin o) = "moderate" ↔ (4 ≤ o ∧ o < 6)) ∧
    (MarineHealthTesting.bucket_do (.fin o) = "high" ↔ o < 4) ∧
    (MarineHealthTesting.bucket_nh3 (.fin a) = "safe" ↔ a ≤ 2/100) ∧
    (MarineHealthTesting.bucket_nh3 (.fin a) = "moderate" ↔
      (2/100 < a ∧ a ≤ 5/100)) ∧
    (MarineHealthTesting.bucket_nh3 (.fin a) = "high" ↔ 5/100 < a) :=
  ⟨MarineHealthTesting.bucket_temp_safe_iff t,
   MarineHealthTesting.bucket_temp_moderate_iff t,
   MarineHealthTesting.bucket_temp_high_iff t,
   MarineHealthTesting.bucket_sal_safe_iff s,
   MarineHealthTesting.bucket_sal_moderate_iff s,
   MarineHealthTesting.bucket_sal_high_iff s,
   MarineHealthTesting.bucket_do_safe_iff o,
   MarineHealthTesting.bucket_do_moderate_iff o,
   MarineHealthTesting.bucket_do_high_iff o,
   MarineHealthTesting.bucket_nh3_safe_iff a,
   MarineHealthTesting.bucket_nh3_moderate_iff a,
   MarineHealthTesting.bucket_nh3_high_iff a⟩

/-- Witness for C1 at the concrete valid input (26, 32, 4, 0): in
particular dissolved oxygen exactly 4.0 is bucketed "moderate", not
"high". -/
theorem C1_bucket_thresholds_witness :
    MarineHealthTesting.bucket_do (.fin 4) = "moderate" :=
  ((C1_bucket_thresholds 26 32 4 0 (by decide) (by decide) (by decide)
    (by decide)).2.2.2.2.2.2.2.1).mpr (by decide)

/-- C2: for every valid input, the returned risk is "high" iff some factor
bucket is "high", "medium" iff no bucket is "high" and some bucket is
"moderate", and the risk is always one of low / medium / high. -/
theorem C2_risk_aggregation (t s o a : ℚ)
    (ht : 0 < t) (hs : 0 < s) (ho : 0 < o) (ha : 0 ≤ a) :
    ∃ r, MarineHealthTesting.classify_marine_health
        (.fin t) (.fin s) (.fin o) (.fin a) = .ok r ∧
      (r.risk = "high" ↔
        (MarineHealthTesting.bucket_temp (.fin t) = "high" ∨
         MarineHealthTesting.bucket_sal (.fin s) = "high" ∨
         MarineHealthTesting.bucket_do (.fin o) = "high" ∨
         MarineHealthTesting.bucket_nh3 (.fin a) = "high")) ∧
      (r.risk = "medium" ↔
        (¬(MarineHealthTesting.bucket_temp (.fin t) = "high" ∨
           MarineHealthTesting.bucket_sal (.fin s) = "high" ∨
           MarineHealthTesting.bucket_do (.fin o) = "high" ∨
           MarineHealthTesting.bucket_nh3 (.fin a) = "high") ∧
         (MarineHealthTesting.bucket_temp (.fin t) = "moderate" ∨
          MarineHealthTesting.bucket_sal (.fin s) = "moderate" ∨
          MarineHealthTesting.bucket_do (.fin o) = "moderate" ∨
          MarineHealthTesting.bucket_nh3 (.fin a) = "moderate"))) ∧
      (r.risk = "low" ∨ r.risk = "medium" ∨ r.risk = "high") := by
  rw [MarineHealthTesting.classify_fin_of_valid t s o a ht hs ho ha]
  refine ⟨_, rfl, ?_, ?_, ?_⟩ <;>
    simp only [MarineHealthTesting.mem_snd_factorsDict] <;>
    split_ifs <;> simp_all

/-- Witness for C2 at the concrete valid input (20, 32, 7, 0): temperature
is in its high band, so the risk is "high". -/
theorem C2_risk_aggregation_witness :
    ∃ r, MarineHealthTesting.classify_marine_health
        (.fin 20) (.fin 32) (.fin 7) (.fin 0) = .ok r ∧ r.risk = "high" := by
  obtain ⟨r, hr, hhigh, _, _⟩ :=
    C2_risk_aggregation 20 32 7 0 (by decide) (by decide) (by decide)
      (by decide)
  exact ⟨r, hr, hhigh.mpr (Or.inl (by decide))⟩

/-- C3: `classify_marine_health` fails with its validation `ValueError`
when some input is non-finite or violates its positivity constraint, and on
every input passing validation it returns a `RiskResult`; with the first
two parts this covers the claimed "if and only if". -/
theorem C3_validation :
    (∀ t s o a : Flt,
      ((t.isnan = true ∨ t.isinf = true) ∨ (s.isnan = true ∨ s.isinf = true) ∨
       (o.isnan = true ∨ o.isinf = true) ∨ (a.isnan = true ∨ a.isinf = true)) →
      ∃ e, MarineHealthTesting.classify_marine_health t s o a = .error e) ∧
    (∀ t s o a : ℚ, (t ≤ 0 ∨ s ≤ 0 ∨ o ≤ 0 ∨ a < 0) →
      ∃ e, MarineHealthTesting.classify_marine_health
        (.fin t) (.fin s) (.fin o) (.fin a) = .error e) ∧
    (∀ t s o a : ℚ, 0 < t → 0 < s → 0 < o → 0 ≤ a →
      ∃ r, MarineHealthTesting.classify_marine_health
        (.fin t) (.fin s) (.fin o) (.fin a) = .ok r) := by
  refine ⟨?_, ?_, ?_⟩
  · intro t s o a h
    unfold MarineHealthTesting.classify_marine_health
    split_ifs <;> first | exact ⟨_, rfl⟩ | simp_all
  · intro t s o a h
    unfold MarineHealthTesting.classify_marine_health
    have hc : (Flt.le (.fin t) (.fin 0) || Flt.le (.fin s) (.fin 0) ||
        Flt.le (.fin o) (.fin 0) || Flt.lt (.fin a) (.fin 0)) = true := by
      simp [Flt.le, Flt.lt]
      tauto
    simp [Flt.isnan, Flt.isinf, hc]
  · intro t s o a ht hs ho ha
    unfold MarineHealthTesting.classify_marine_health
    split_ifs with h1 h2 h3 h4 h5 <;>
      first
      | exact ⟨_, rfl⟩
      | simp_all [Flt.isnan, Flt.isinf, Flt.le, Flt.lt, ht.not_le, hs.not_le,
          ho.not_le, ha.not_lt]

/-- Witness for C3 at concrete inputs: a NaN input errors, a zero
temperature errors, and a fully valid input succeeds. -/
theorem C3_validation_witness :
    (∃ e, MarineHealthTesting.classify_marine_health
      .nan (.fin 32) (.fin 7) (.fin 0) = .error e) ∧
    (∃ e, MarineHealthTesting.classify_marine_health
      (.fin 0) (.fin 32) (.fin 7) (.fin 0) = .error e) ∧
    (∃ r, MarineHealthTesting.classify_marine_health
      (.fin 26) (.fin 32) (.fin 7) (.fin 0) = .ok r) :=
  ⟨C3_validation.1 .nan (.fin 32) (.fin 7) (.fin 0) (Or.inl (Or.inl rfl)),
   C3_validation.2.1 0 32 7 0 (Or.inl (by decide)),
   C3_validation.2.2 26 32 7 0 (by decide) (by decide) (by decide)
     (by decide)⟩

/-- C4: for every valid input, the risk derived from the Decision/Coverage
Evaluator ("high" when `AGG_has_high`, else "medium" when
`AGG_has_moderate`, else "low") equals the risk the classifier returns on
the same four raw inputs. -/
theorem C4_evaluator_agrees_with_classifier (t s o a : ℚ)
    (ht : 0 < t) (hs : 0 < s) (ho : 0 < o) (ha : 0 ≤ a) :
    ∃ r, C2Branch.classify_marine_health
        (.fin t) (.fin s) (.fin o) (.fin a) = .ok r ∧
      C2Branch.derivedRisk (.fin t) (.fin s) (.fin o) (.fin a) = r.risk := by
  rw [c2_classify_eq,
    MarineHealthTesting.classify_fin_of_valid t s o a ht hs ho ha]
  refine ⟨_, rfl, ?_⟩
  unfold C2Branch.derivedRisk
  simp only [C2Branch.eval_agg_high_true_iff, C2Branch.eval_agg_mod_true_iff,
    MarineHealthTesting.mem_snd_factorsDict, c2_bucket_temp_eq,
    c2_bucket_sal_eq, c2_bucket_do_eq, c2_bucket_nh3_eq]
  split_ifs <;> first | rfl | tauto

/-- Witness for C4 at the concrete valid input (26, 32, 7, 0). -/
theorem C4_evaluator_agrees_with_classifier_witness :
    ∃ r, C2Branch.classify_marine_health
        (.fin 26) (.fin 32) (.fin 7) (.fin 0) = .ok r ∧
      C2Branch.derivedRisk (.fin 26) (.fin 32) (.fin 7) (.fin 0) = r.risk :=
  C4_evaluator_agrees_with_classifier 26 32 7 0 (by decide) (by decide)
    (by decide) (by decide)

/-- C5: for every valid input, the factors list contains exactly the names
of the non-safe readings, is a sublist of the fixed enumeration order
(temp, salinity, dissolved_oxygen, ammonia) — hence in that order — and has
no duplicates. -/
theorem C5_factors_exact (t s o a : ℚ)
    (ht : 0 < t) (hs : 0 < s) (ho : 0 < o) (ha : 0 ≤ a) :
    ∃ r, MarineHealthTesting.classify_marine_health
        (.fin t) (.fin s) (.fin o) (.fin a) = .ok r ∧
      List.Sublist r.factors
        ["temp", "salinity", "dissolved_oxygen", "ammonia"] ∧
      r.factors.Nodup ∧
      (∀ n : String, n ∈ r.factors ↔
        ((n = "temp" ∧ MarineHealthTesting.bucket_temp (.fin t) ≠ "safe") ∨
         (n = "salinity" ∧
           MarineHealthTesting.bucket_sal (.fin s) ≠ "safe") ∨
         (n = "dissolved_oxygen" ∧
           MarineHealthTesting.bucket_do (.fin o) ≠ "safe") ∨
         (n = "ammonia" ∧
           MarineHealthTesting.bucket_nh3 (.fin a) ≠ "safe"))) := by
  rw [MarineHealthTesting.classify_fin_of_valid t s o a ht hs ho ha]
  have hsub : List.Sublist
      (((MarineHealthTesting.factorsDict (.fin t) (.fin s) (.fin o)
        (.fin a)).filter (fun p => p.2 ≠ "safe")).map Prod.fst)
      ["temp", "salinity", "dissolved_oxygen", "ammonia"] :=
    (List.filter_sublist _).map Prod.fst
  refine ⟨_, rfl, hsub, hsub.nodup (by decide), ?_⟩
  intro n
  simp only [List.mem_map, List.mem_filter, MarineHealthTesting.factorsDict,
    List.mem_cons, List.not_mem_nil, or_false, decide_eq_true_eq]
  aesop

/-- Witness for C5 at the concrete valid input (20, 32, 7, 0): temperature
is non-safe, so "temp" is in the factors list. -/
theorem C5_factors_exact_witness :
    ∃ r, MarineHealthTesting.classify_marine_health
        (.fin 20) (.fin 32) (.fin 7) (.fin 0) = .ok r ∧ "temp" ∈ r.factors := by
  obtain ⟨r, hr, _, _, hmem⟩ :=
    C5_factors_exact 20 32 7 0 (by decide) (by decide) (by decide) (by decide)
  exact ⟨r, hr, (hmem "temp").mpr (Or.inl ⟨rfl, by decide⟩)⟩

/-- C6: with the other three readings at safe center values
(temp 26, sal 32, do 7, nh3 0), moving one reading through its safe,
moderate and (valid) high band produces risk "low", "medium" and "high"
respectively; the factors list names exactly the moved reading when it is
non-safe. -/
theorem C6_band_monotonicity :
    (∀ t : ℚ, 24 ≤ t ∧ t ≤ 28 →
      MarineHealthTesting.classify_marine_health (.fin t) (.fin 32) (.fin 7)
        (.fin 0) = .ok ⟨"low", []⟩) ∧
    (∀ t : ℚ, (22 ≤ t ∧ t < 24) ∨ (28 < t ∧ t ≤ 30) →
      MarineHealthTesting.classify_marine_health (.fin t) (.fin 32) (.fin 7)
        (.fin 0) = .ok ⟨"medium", ["temp"]⟩) ∧
    (∀ t : ℚ, 0 < t ∧ (t < 22 ∨ 30 < t) →
      MarineHealthTesting.classify_marine_health (.fin t) (.fin 32) (.fin 7)
        (.fin 0) = .ok ⟨"high", ["temp"]⟩) ∧
    (∀ s : ℚ, 30 ≤ s ∧ s ≤ 35 →
      MarineHealthTesting.classify_marine_health (.fin 26) (.fin s) (.fin 7)
        (.fin 0) = .ok ⟨"low", []⟩) ∧
    (∀ s : ℚ, (28 ≤ s ∧ s < 30) ∨ (35 < s ∧ s ≤ 37) →
      MarineHealthTesting.classify_marine_health (.fin 26) (.fin s) (.fin 7)
        (.fin 0) = .ok ⟨"medium", ["salinity"]⟩) ∧
    (∀ s : ℚ, 0 < s ∧ (s < 28 ∨ 37 < s) →
      MarineHealthTesting.classify_marine_health (.fin 26) (.fin s) (.fin 7)
        (.fin 0) = .ok ⟨"high", ["salinity"]⟩) ∧
    (∀ o : ℚ, 6 ≤ o →
      MarineHealthTesting.classify_marine_health (.fin 26) (.fin 32) (.fin o)
        (.fin 0) = .ok ⟨"low", []⟩) ∧
    (∀ o : ℚ, 4 ≤ o ∧ o < 6 →
      MarineHealthTesting.classify_marine_health (.fin 26) (.fin 32) (.fin o)
        (.fin 0) = .ok ⟨"medium", ["dissolved_oxygen"]⟩) ∧
    (∀ o : ℚ, 0 < o ∧ o < 4 →
      MarineHealthTesting.classify_marine_health (.fin 26) (.fin 32) (.fin o)
        (.fin 0) = .ok ⟨"high", ["dissolved_oxygen"]⟩) ∧
    (∀ a : ℚ, 0 ≤ a ∧ a ≤ 2/100 →
      MarineHealthTesting.classify_marine_health (.fin 26) (.fin 32) (.fin 7)
        (.fin a) = .ok ⟨"low", []⟩) ∧
    (∀ a : ℚ, 2/100 < a ∧ a ≤ 5/100 →
      MarineHealthTesting.classify_marine_health (.fin 26) (.fin 32) (.fin 7)
        (.fin a) = .ok ⟨"medium", ["ammonia"]⟩) ∧
    (∀ a : ℚ, 5/100 < a →
      MarineHealthTesting.classify_marine_health (.fin 26) (.fin 32) (.fin 7)
        (.fin a) = .ok ⟨"high", ["ammonia"]⟩) := by
  refine ⟨?_, ?_, ?_, ?_, ?_, ?_, ?_, ?_, ?_, ?_, ?_, ?_⟩
  · intro t h
    have hb : MarineHealthTesting.bucket_temp (.fin t) = "safe" :=
      (MarineHealthTesting.bucket_temp_safe_iff t).mpr h
    rw [MarineHealthTesting.classify_fin_of_valid t 32 7 0 (by linarith [h.1])
      (by norm_num) (by norm_num) le_rfl]
    unfold MarineHealthTesting.factorsDict
    rw [hb]
    norm_num [MarineHealthTesting.bucket_sal, MarineHealthTesting.bucket_do,
      MarineHealthTesting.bucket_nh3, Flt.le, Flt.lt]
    decide
  · intro t h
    have hb : MarineHealthTesting.bucket_temp (.fin t) = "moderate" :=
      (MarineHealthTesting.bucket_temp_moderate_iff t).mpr h
    rw [MarineHealthTesting.classify_fin_of_valid t 32 7 0
      (by rcases h with ⟨h1, _⟩ | ⟨h1, _⟩ <;> linarith)
      (by norm_num) (by norm_num) le_rfl]
    unfold MarineHealthTesting.factorsDict
    rw [hb]
    norm_num [MarineHealthTesting.bucket_sal, MarineHealthTesting.bucket_do,
      MarineHealthTesting.bucket_nh3, Flt.le, Flt.lt]
    decide
  · intro t h
    have hb : MarineHealthTesting.bucket_temp (.fin t) = "high" :=
      (MarineHealthTesting.bucket_temp_high_iff t).mpr
        ⟨by rintro ⟨x1, x2⟩; rcases h.2 with hh | hh <;> linarith,
         by rintro (⟨x1, x2⟩ | ⟨x1, x2⟩) <;> rcases h.2 with hh | hh <;>
           linarith⟩
    rw [MarineHealthTesting.classify_fin_of_valid t 32 7 0 h.1
      (by norm_num) (by norm_num) le_rfl]
    unfold MarineHealthTesting.factorsDict
    rw [hb]
    norm_num [MarineHealthTesting.bucket_sal, MarineHealthTesting.bucket_do,
      MarineHealthTesting.bucket_nh3, Flt.le, Flt.lt]
    decide
  · intro s h
    have hb : MarineHealthTesting.bucket_sal (.fin s) = "safe" :=
      (MarineHealthTesting.bucket_sal_safe_iff s).mpr h
    rw [MarineHealthTesting.classify_fin_of_valid 26 s 7 0 (by norm_num)
      (by linarith [h.1]) (by norm_num) le_rfl]
    unfold MarineHealthTesting.factorsDict
    rw [hb]
    norm_num [MarineHealthTesting.bucket_temp, MarineHealthTesting.bucket_do,
      MarineHealthTesting.bucket_nh3, Flt.le, Flt.lt]
    decide
  · intro s h
    have hb : MarineHealthTesting.bucket_sal (.fin s) = "moderate" :=
      (MarineHealthTesting.bucket_sal_moderate_iff s).mpr h
    rw [MarineHealthTesting.classify_fin_of_valid 26 s 7 0 (by norm_num)
      (by rcases h with ⟨h1, _⟩ | ⟨h1, _⟩ <;> linarith)
      (by norm_num) le_rfl]
    unfold MarineHealthTesting.factorsDict
    rw [hb]
    norm_num [MarineHealthTesting.bucket_temp, MarineHealthTesting.bucket_do,
      MarineHealthTesting.bucket_nh3, Flt.le, Flt.lt]
    decide
  · intro s h
    have hb : MarineHealthTesting.bucket_sal (.fin s) = "high" :=
      (MarineHealthTesting.bucket_sal_high_iff s).mpr
        ⟨by rintro ⟨x1, x2⟩; rcases h.2 with hh | hh <;> linarith,
         by rintro (⟨x1, x2⟩ | ⟨x1, x2⟩) <;> rcases h.2 with hh | hh <;>
           linarith⟩
    rw [MarineHealthTesting.classify_fin_of_valid 26 s 7 0 (by norm_num) h.1
      (by norm_num) le_rfl]
    unfold MarineHealthTesting.factorsDict
    rw [hb]
    norm_num [MarineHealthTesting.bucket_temp, MarineHealthTesting.bucket_do,
      MarineHealthTesting.bucket_nh3, Flt.le, Flt.lt]
    decide
  · intro o h
    have hb : MarineHealthTesting.bucket_do (.fin o) = "safe" :=
      (MarineHealthTesting.bucket_do_safe_iff o).mpr h
    rw [MarineHealthTesting.classify_fin_of_valid 26 32 o 0 (by norm_num)
      (by norm_num) (by linarith) le_rfl]
    unfold MarineHealthTesting.factorsDict
    rw [hb]
    norm_num [MarineHealthTesting.bucket_temp, MarineHealthTesting.bucket_sal,
      MarineHealthTesting.bucket_nh3, Flt.le, Flt.lt]
    decide
  · intro o h
    have hb : MarineHealthTesting.bucket_do (.fin o) = "moderate" :=
      (MarineHealthTesting.bucket_do_moderate_iff o).mpr h
    rw [MarineHealthTesting.classify_fin_of_valid 26 32 o 0 (by norm_num)
      (by norm_num) (by linarith [h.1]) le_rfl]
    unfold MarineHealthTesting.factorsDict
    rw [hb]
    norm_num [MarineHealthTesting.bucket_temp, MarineHealthTesting.bucket_sal,
      MarineHealthTesting.bucket_nh3, Flt.le, Flt.lt]
    decide
  · intro o h
    have hb : MarineHealthTesting.bucket_do (.fin o) = "high" :=
      (MarineHealthTesting.bucket_do_high_iff o).mpr h.2
    rw [MarineHealthTesting.classify_fin_of_valid 26 32 o 0 (by norm_num)
      (by norm_num) h.1 le_rfl]
    unfold MarineHealthTesting.factorsDict
    rw [hb]
    norm_num [MarineHealthTesting.bucket_temp, MarineHealthTesting.bucket_sal,
      MarineHealthTesting.bucket_nh3, Flt.le, Flt.lt]
    decide
  · intro a h
    have hb : MarineHealthTesting.bucket_nh3 (.fin a) = "safe" :=
      (MarineHealthTesting.bucket_nh3_safe_iff a).mpr h.2
    rw [MarineHealthTesting.classify_fin_of_valid 26 32 7 a (by norm_num)
      (by norm_num) (by norm_num) h.1]
    unfold MarineHealthTesting.factorsDict
    rw [hb]
    norm_num [MarineHealthTesting.bucket_temp, MarineHealthTesting.bucket_sal,
      MarineHealthTesting.bucket_do, Flt.le, Flt.lt]
    decide
  · intro a h
    have hb : MarineHealthTesting.bucket_nh3 (.fin a) = "moderate" :=
      (MarineHealthTesting.bucket_nh3_moderate_iff a).mpr h
    rw [MarineHealthTesting.classify_fin_of_valid 26 32 7 a (by norm_num)
      (by norm_num) (by norm_num) (by linarith [h.1])]
    unfold MarineHealthTesting.factorsDict
    rw [hb]
    norm_num [MarineHealthTesting.bucket_temp, MarineHealthTesting.bucket_sal,
      MarineHealthTesting.bucket_do, Flt.le, Flt.lt]
    decide
  · intro a h
    have hb : MarineHealthTesting.bucket_nh3 (.fin a) = "high" :=
      (MarineHealthTesting.bucket_nh3_high_iff a).mpr h
    rw [MarineHealthTesting.classify_fin_of_valid 26 32 7 a (by norm_num)
      (by norm_num) (by norm_num) (by linarith)]
    unfold MarineHealthTesting.factorsDict
    rw [hb]
    norm_num [MarineHealthTesting.bucket_temp, MarineHealthTesting.bucket_sal,
      MarineHealthTesting.bucket_do, Flt.le, Flt.lt]
    decide

/-- Witness for C6: one concrete input in each of the twelve bands. -/
theorem C6_band_monotonicity_witness :
    MarineHealthTesting.classify_marine_health (.fin 26) (.fin 32) (.fin 7)
      (.fin 0) = .ok ⟨"low", []⟩ ∧
    MarineHealthTesting.classify_marine_health (.fin 23) (.fin 32) (.fin 7)
      (.fin 0) = .ok ⟨"medium", ["temp"]⟩ ∧
    MarineHealthTesting.classify_marine_health (.fin 20) (.fin 32) (.fin 7)
      (.fin 0) = .ok ⟨"high", ["temp"]⟩ ∧
    MarineHealthTesting.classify_marine_health (.fin 26) (.fin 32) (.fin 7)
      (.fin 0) = .ok ⟨"low", []⟩ ∧
    MarineHealthTesting.classify_marine_health (.fin 26) (.fin 29) (.fin 7)
      (.fin 0) = .ok ⟨"medium", ["salinity"]⟩ ∧
    MarineHealthTesting.classify_marine_health (.fin 26) (.fin 27) (.fin 7)
      (.fin 0) = .ok ⟨"high", ["salinity"]⟩ ∧
    MarineHealthTesting.classify_marine_health (.fin 26) (.fin 32) (.fin 6)
      (.fin 0) = .ok ⟨"low", []⟩ ∧
    MarineHealthTesting.classify_marine_health (.fin 26) (.fin 32) (.fin 5)
      (.fin 0) = .ok ⟨"medium", ["dissolved_oxygen"]⟩ ∧
    MarineHealthTesting.classify_marine_health (.fin 26) (.fin 32) (.fin 3)
      (.fin 0) = .ok ⟨"high", ["dissolved_oxygen"]⟩ ∧
    MarineHealthTesting.classify_marine_health (.fin 26) (.fin 32) (.fin 7)
      (.fin 0) = .ok ⟨"low", []⟩ ∧
    MarineHealthTesting.classify_marine_health (.fin 26) (.fin 32) (.fin 7)
      (.fin (3/100)) = .ok ⟨"medium", ["ammonia"]⟩ ∧
    MarineHealthTesting.classify_marine_health (.fin 26) (.fin 32) (.fin 7)
      (.fin (6/100)) = .ok ⟨"high", ["ammonia"]⟩ :=
  ⟨C6_band_monotonicity.1 26 (by decide),
   C6_band_monotonicity.2.1 23 (Or.inl (by decide)),
   C6_band_monotonicity.2.2.1 20 ⟨by decide, Or.inl (by decide)⟩,
   C6_band_monotonicity.2.2.2.1 32 (by decide),
   C6_band_monotonicity.2.2.2.2.1 29 (Or.inl (by decide)),
   C6_band_monotonicity.2.2.2.2.2.1 27 ⟨by decide, Or.inl (by decide)⟩,
   C6_band_monotonicity.2.2.2.2.2.2.1 6 (by decide),
   C6_band_monotonicity.2.2.2.2.2.2.2.1 5 (by decide),
   C6_band_monotonicity.2.2.2.2.2.2.2.2.1 3 (by decide),
   C6_band_monotonicity.2.2.2.2.2.2.2.2.2.1 0 (by norm_num),
   C6_band_monotonicity.2.2.2.2.2.2.2.2.2.2.1 (3/100) (by norm_num),
   C6_band_monotonicity.2.2.2.2.2.2.2.2.2.2.2 (6/100) (by norm_num)⟩

/-- C7: running the full literal corpus (the 9 entries of `TESTS` and the 4
entries of `ERROR_TESTS`) through `eval_decisions` observes both a true and
a false outcome for every one of the 14 named decisions, so the harness's
`missing` list is empty and it declares the coverage PASS verdict. -/
theorem C7_full_decision_coverage :
    (C2Branch.DECISIONS.all
      (fun n => C2Branch.seen n true && C2Branch.seen n false)) = true ∧
    C2Branch.missing = [] := by
  constructor <;>
    norm_num [C2Branch.missing, C2Branch.seen, C2Branch.corpusRecords,
      C2Branch.TESTS, C2Branch.ERROR_TESTS, C2Branch.eval_decisions,
      C2Branch.DECISIONS, Flt.le, Flt.lt, List.contains]

/-- C8: for every input the key list of `eval_decisions` is exactly the 14
named decisions, and on finite inputs each decision is true exactly under
its specified condition: the four validation predicates, the eight §4.1
band predicates, `AGG_has_high` iff some factor bucket is "high", and
`AGG_has_moderate` iff no bucket is "high" and some bucket is
"moderate". -/
theorem C8_eval_decisions_meaning :
    (∀ t s o a : Flt,
      (C2Branch.eval_decisions t s o a).map Prod.fst = C2Branch.DECISIONS) ∧
    (∀ t s o a : ℚ,
      (((C2Branch.eval_decisions (.fin t) (.fin s) (.fin o) (.fin a)).lookup
          "VAL_temp_gt0" = some true) ↔ 0 < t) ∧
      (((C2Branch.eval_decisions (.fin t) (.fin s) (.fin o) (.fin a)).lookup
          "VAL_sal_gt0" = some true) ↔ 0 < s) ∧
      (((C2Branch.eval_decisions (.fin t) (.fin s) (.fin o) (.fin a)).lookup
          "VAL_do_gt0" = some true) ↔ 0 < o) ∧
      (((C2Branch.eval_decisions (.fin t) (.fin s) (.fin o) (.fin a)).lookup
          "VAL_nh3_ge0" = some true) ↔ 0 ≤ a) ∧
      (((C2Branch.eval_decisions (.fin t) (.fin s) (.fin o) (.fin a)).lookup
          "T_safe_24_28" = some true) ↔ (24 ≤ t ∧ t ≤ 28)) ∧
      (((C2Branch.eval_decisions (.fin t) (.fin s) (.fin o) (.fin a)).lookup
          "T_moderate_22_24_or_28_30" = some true) ↔
        ((22 ≤ t ∧ t < 24) ∨ (28 < t ∧ t ≤ 30))) ∧
      (((C2Branch.eval_decisions (.fin t) (.fin s) (.fin o) (.fin a)).lookup
          "S_safe_30_35" = some true) ↔ (30 ≤ s ∧ s ≤ 35)) ∧
      (((C2Branch.eval_decisions (.fin t) (.fin s) (.fin o) (.fin a)).lookup
          "S_moderate_28_30_or_35_37" = some true) ↔
        ((28 ≤ s ∧ s < 30) ∨ (35 < s ∧ s ≤ 37))) ∧
      (((C2Branch.eval_decisions (.fin t) (.fin s) (.fin o) (.fin a)).lookup
          "DO_safe_ge6" = some true) ↔ 6 ≤ o) ∧
      (((C2Branch.eval_decisions (.fin t) (.fin s) (.fin o) (.fin a)).lookup
          "DO_high_lt4" = some true) ↔ o < 4) ∧
      (((C2Branch.eval_decisions (.fin t) (.fin s) (.fin o) (.fin a)).lookup
          "NH3_safe_le_0_02" = some true) ↔ a ≤ 2/100) ∧
      (((C2Branch.eval_decisions (.fin t) (.fin s) (.fin o) (.fin a)).lookup
          "NH3_high_gt_0_05" = some true) ↔ 5/100 < a) ∧
      (((C2Branch.eval_decisions (.fin t) (.fin s) (.fin o) (.fin a)).lookup
          "AGG_has_high" = some true) ↔
        (C2Branch.bucket_temp (.fin t) = "high" ∨
         C2Branch.bucket_sal (.fin s) = "high" ∨
         C2Branch.bucket_do (.fin o) = "high" ∨
         C2Branch.bucket_nh3 (.fin a) = "high")) ∧
      (((C2Branch.eval_decisions (.fin t) (.fin s) (.fin o) (.fin a)).lookup
          "AGG_has_moderate" = some true) ↔
        (¬(C2Branch.bucket_temp (.fin t) = "high" ∨
           C2Branch.bucket_sal (.fin s) = "high" ∨
           C2Branch.bucket_do (.fin o) = "high" ∨
           C2Branch.bucket_nh3 (.fin a) = "high") ∧
         (C2Branch.bucket_temp (.fin t) = "moderate" ∨
          C2Branch.bucket_sal (.fin s) = "moderate" ∨
          C2Branch.bucket_do (.fin o) = "moderate" ∨
          C2Branch.bucket_nh3 (.fin a) = "moderate")))) :=
  ⟨fun _ _ _ _ => rfl,
   fun t s o a =>
    ⟨by simp [C2Branch.eval_decisions, List.lookup, Flt.le, Flt.lt],
     by simp [C2Branch.eval_decisions, List.lookup, Flt.le, Flt.lt],
     by simp [C2Branch.eval_decisions, List.lookup, Flt.le, Flt.lt],
     by simp [C2Branch.eval_decisions, List.lookup, Flt.le, Flt.lt],
     by simp [C2Branch.eval_decisions, List.lookup, Flt.le, Flt.lt],
     by simp [C2Branch.eval_decisions, List.lookup, Flt.le, Flt.lt],
     by simp [C2Branch.eval_decisions, List.lookup, Flt.le, Flt.lt],
     by simp [C2Branch.eval_decisions, List.lookup, Flt.le, Flt.lt],
     by simp [C2Branch.eval_decisions, List.lookup, Flt.le, Flt.lt],
     by simp [C2Branch.eval_decisions, List.lookup, Flt.le, Flt.lt],
     by simp [C2Branch.eval_decisions, List.lookup, Flt.le, Flt.lt],
     by simp [C2Branch.eval_decisions, List.lookup, Flt.le, Flt.lt],
     C2Branch.eval_agg_high_true_iff t s o a,
     C2Branch.eval_agg_mod_true_iff t s o a⟩⟩

/-- C9: the two copies of `classify_marine_health` are extensionally equal:
on every four-float input they produce identical results (same error, or
same risk and factors). -/
theorem C9_classifier_copies_equal : ∀ t s o a : Flt,
    C2Branch.classify_marine_health t s o a =
      MarineHealthTesting.classify_marine_health t s o a :=
  fun _ _ _ _ => rfl

/-- C10: `eval_decisions` is total: on every four-float input — NaN,
infinite, zero and negative values included — it returns a mapping with
exactly the 14 decision keys; on the all-NaN input all 12 comparison-based
decisions are false (`AGG_has_high`, an aggregate of them, is true), while
`classify_marine_health` rejects that same input. -/
theorem C10_eval_decisions_total :
    (∀ t s o a : Flt,
      (C2Branch.eval_decisions t s o a).map Prod.fst = C2Branch.DECISIONS) ∧
    C2Branch.eval_decisions .nan .nan .nan .nan =
      [("VAL_temp_gt0", false), ("VAL_sal_gt0", false), ("VAL_do_gt0", false),
       ("VAL_nh3_ge0", false), ("T_safe_24_28", false),
       ("T_moderate_22_24_or_28_30", false), ("S_safe_30_35", false),
       ("S_moderate_28_30_or_35_37", false), ("DO_safe_ge6", false),
       ("DO_high_lt4", false), ("NH3_safe_le_0_02", false),
       ("NH3_high_gt_0_05", false), ("AGG_has_high", true),
       ("AGG_has_moderate", false)] ∧
    C2Branch.classify_marine_health .nan .nan .nan .nan =
      .error "temp_c must be a finite number." :=
  ⟨fun _ _ _ _ => rfl, rfl, rfl⟩
